import Mathlib

/-!
# IntentLink backend — verification of the security-vetted ranking and plan pipeline

Shallow embedding of the core logic of the IntentLink backend:

* `services/security_service.py` — the GoPlus security-oracle client
  (`SecurityService._get_access_token`, `SecurityService.run_security_check`);
* `api_v1/api.py` — the planning endpoint `plan_intent` (whitelist selection,
  per-candidate security filtering, utility ranking, plan construction).

Network interactions are modelled by explicit environment values describing the
responses the outside world would return; Python `float` arithmetic is modelled
with `ℚ`; Python dictionaries with optional fields are modelled by structures of
`Option`-typed fields (an absent key is `none`; an empty dict, which Python
treats as falsy in `or`-chains, is likewise modelled as `none`).
-/

namespace IntentLink

/-! ## Python-style helpers -/

/-- Python `str(x)` applied to an optional value, as Python renders `None`. -/
def pyStr : Option String → String
  | none => "None"
  | some s => s

/-- Membership of a flag string in the truthy literal set `{"1", "true", "True"}`
used throughout `run_security_check`. -/
def truthy (s : String) : Bool :=
  s == "1" || s == "true" || s == "True"

/-- Membership in the falsy literal set `{"0", "false", "False"}` used by the
`is_open_source` branch of `run_security_check`. -/
def falsy (s : String) : Bool :=
  s == "0" || s == "false" || s == "False"

/-- Python string truthiness: a string is truthy iff it is non-empty;
`None` is falsy. -/
def strTruthy : Option String → Bool
  | none => false
  | some s => !(s == "")

/-- Python `a or b` on optional strings: keeps `a` when it is truthy. -/
def pyOrStr (a b : Option String) : Option String :=
  if strTruthy a then a else b

/-- Substring test on character lists (Python's `needle in haystack`). -/
def containsSub (n : List Char) : List Char → Bool
  | [] => n.isEmpty
  | c :: t => n.isPrefixOf (c :: t) || containsSub n t

/-- Python's `needle in haystack` on strings. -/
def pyIn (needle s : String) : Bool :=
  containsSub needle.data s.data

/-- Python's `str.lower()` (the strings of this code base are ASCII). -/
def pyLower (s : String) : String :=
  ⟨s.data.map Char.toLower⟩

/-! ## Data model (`services/security_service.py`, `api_v1/schemas.py`) -/

/-- Schema `SecurityReport` of `security_service.py`. -/
structure SecurityReport where
  is_safe : Bool
  safety_score : Int
  warnings : List String
deriving Repr, DecidableEq

/-- Aggregation at the end of `SecurityService.run_security_check`
(lines 292–300): `is_safe = not is_honeypot and not is_malicious_creator`,
`safety_score = max(0, 100 - 10*len(warnings) - 80*honeypot - 50*malicious)`. -/
def aggregate (is_honeypot is_malicious_creator : Bool) (warnings : List String) :
    SecurityReport :=
  { is_safe := !is_honeypot && !is_malicious_creator
    safety_score :=
      max 0 (100 - 10 * (warnings.length : Int)
        - (if is_honeypot then 80 else 0)
        - (if is_malicious_creator then 50 else 0))
    warnings := warnings }

/-! ## Token acquisition (`SecurityService._get_access_token`) -/

/-- Credentials held by the service (`api_key`, `api_secret`). -/
structure Config where
  api_key : String
  api_secret : String
deriving DecidableEq

/-- Python truthiness of `self.api_key and self.api_secret`. -/
def credsConfigured (c : Config) : Bool :=
  !(c.api_key == "") && !(c.api_secret == "")

/-- The `result` / `data` object possibly nested in a token response body. -/
structure TokenResultObj where
  access_token : Option String
  token : Option String
  expires_in : Option Int
deriving DecidableEq

/-- A JSON body returned by `POST {base}/token`; absent keys are `none`. -/
structure TokenBody where
  code : Option Int
  result : Option TokenResultObj
  data : Option TokenResultObj
  access_token : Option String
  token : Option String
  expires_in : Option Int
deriving DecidableEq

/-- Outcome of one `POST {base}/token` attempt, as seen by the client:
an HTTP status error (caught by the inner `except httpx.HTTPStatusError`),
any other exception (escapes the per-attempt handler), or a parsed body. -/
inductive TokenResp where
  | httpError
  | fatal
  | ok (body : TokenBody)
deriving DecidableEq

/-- Python `a or b` where both operands are optional dicts (an absent or empty
dict is falsy and modelled as `none`). -/
def pyOrObj (a b : Option TokenResultObj) : Option TokenResultObj :=
  match a with
  | some x => some x
  | none => b

/-- Result of evaluating one authentication attempt inside the loop of
`_get_access_token`: a non-HTTP exception aborts the whole call (`fatal`),
otherwise either no usable token was extracted (`failed`, the loop continues)
or a token plus its reported expiry was obtained (`success`). -/
inductive AttemptRes where
  | fatal
  | failed
  | success (tok : String) (expires : Int)
deriving DecidableEq

/-- One iteration of the authentication loop of `_get_access_token`
(lines 80–126): check the `code` field, locate the `result`/`data` container,
extract `access_token` or `token`, and read the expiry. -/
def evalAttempt : TokenResp → AttemptRes
  | .httpError => .failed
  | .fatal => .fatal
  | .ok body =>
    let codeErr := match body.code with
      | some cd => cd != 0 && cd != 1
      | none => false
    if codeErr then .failed
    else
      let res := pyOrObj body.result body.data
      let tok := match res with
        | some r => pyOrStr r.access_token r.token
        | none => pyOrStr body.access_token body.token
      match tok with
      | none => .failed
      | some t =>
        if t == "" then .failed
        else
          let e0 := body.expires_in.getD 3600
          let e := match res with
            | some r => r.expires_in.getD e0
            | none => e0
          .success t e

/-- The authentication loop over the ordered payload shapes. The `Nat` argument
counts requests already issued; on success it reports the total number of
requests, on failure (`error`) it carries the number issued before the call
raised. -/
def tryAttempts : List TokenResp → Nat → Except Nat (String × Int × Nat)
  | [], n => .error n
  | r :: rest, n =>
    match evalAttempt r with
    | .fatal => .error (n + 1)
    | .failed => tryAttempts rest (n + 1)
    | .success t e => .ok (t, e, n + 1)

/-- Model of `SecurityService._get_access_token` (lines 56–139). The environment is the
cached token (if any) and the response each successive authentication attempt
would receive; the code issues at most three attempts (one per payload shape).
Returns `(outcome, requestCount)`: `ok (token, cacheWrite)` where `cacheWrite`
is `some (token, ttl)` when a fresh token is stored with `ex=ttl`, or
`error ()` when the Python function raises. -/
def getAccessToken (c : Config) (cache : Option String) (resps : List TokenResp) :
    Except Unit (String × Option (String × Int)) × Nat :=
  match cache with
  | some t => (.ok (t, none), 0)
  | none =>
    if credsConfigured c then
      match tryAttempts (resps.take 3) 0 with
      | .ok (t, e, n) => (.ok (t, some (t, max 60 (e - 60))), n)
      | .error k => (.error (), k)
    else
      (.error (), 0)

/-! ## The two sub-checks of `run_security_check` -/

/-- Address-keyed entry of a token-security response: the `is_honeypot` and
`is_open_source` fields (absent keys are `none`; `str(...)` is applied). -/
structure TokenSecResult where
  is_honeypot : Option String
  is_open_source : Option String
deriving DecidableEq

/-- Outcome of one oracle sub-check call: a transport/HTTP error or any other
exception (both caught and downgraded to a warning), or a parsed payload. -/
inductive SubResp (α : Type) where
  | error
  | ok (a : α)
deriving DecidableEq

/-- Token-security sub-check (lines 181–236): returns the warnings it appends
and the honeypot flag. `ok none` models a response with no entry for the
address (after trying the lower-cased and the exact address key). -/
def tokenSubCheck : SubResp (Option TokenSecResult) → List String × Bool
  | .error => (["Failed to perform token security check."], false)
  | .ok none => (["Could not retrieve a token security report from GoPlus."], false)
  | .ok (some r) =>
    let hp := truthy (pyStr r.is_honeypot)
    let w1 := if hp then ["Honeypot detected by GoPlus."] else []
    let w2 := if falsy (pyStr r.is_open_source) then
        ["Contract source code is not verified."] else []
    (w1 ++ w2, hp)

/-- Address-security sub-check on the (mocked, always-present) deployer address
(lines 238–283): `ok none` models a response with no result data, `ok (some f)`
carries the `honeypot_related_address` field. -/
def addrSubCheck : SubResp (Option (Option String)) → List String × Bool
  | .error => (["Failed to perform deployer address security check."], false)
  | .ok none => ([], false)
  | .ok (some f) =>
    if truthy (pyStr f) then
      (["Deployer address is related to honeypot activities."], true)
    else ([], false)

/-- The oracle's behaviour towards one `run_security_check` call. -/
structure OracleEnv where
  tokenSec : SubResp (Option TokenSecResult)
  addrSec : SubResp (Option (Option String))
deriving DecidableEq

/-- Token obtained at the start of `run_security_check` (lines 167–177):
attempted only when credentials are configured, and any failure of
`_get_access_token` is caught and leaves the token `None`. -/
def obtainToken (c : Config) (cache : Option String) (resps : List TokenResp) :
    Option String :=
  if credsConfigured c then
    match (getAccessToken c cache resps).1 with
    | .ok (t, _) => some t
    | .error _ => none
  else none

/-- Model of `SecurityService.run_security_check` (lines 150–300): runs both sub-checks,
aggregates flags and warnings, and always returns a report. The second
component is the access token used for the downstream calls (`none` means the
requests carry no `Authorization` header). -/
def run_security_check (c : Config) (cache : Option String) (resps : List TokenResp)
    (o : OracleEnv) : SecurityReport × Option String :=
  let tok := obtainToken c cache resps
  let r1 := tokenSubCheck o.tokenSec
  let r2 := addrSubCheck o.addrSec
  (aggregate r1.2 r2.2 (r1.1 ++ r2.1), tok)

/-! ## Planning endpoint (`api_v1/api.py`, `plan_intent`) -/

/-- Python's `round(x, 6)` rounds half to even; this is the integer part. -/
def roundHalfEven (q : ℚ) : ℤ :=
  let f := ⌊q⌋
  let r := q - f
  if r < 1 / 2 then f
  else if 1 / 2 < r then f + 1
  else if f % 2 = 0 then f else f + 1

/-- Python `round(x, 6)` on the `ℚ`-model of Python floats. -/
def round6 (q : ℚ) : ℚ :=
  (roundHalfEven (q * 1000000) : ℚ) / 1000000

/-- One whitelist entry of `plan_intent` (the `address` / `mock_apy` /
`mock_tvl` / `protocol` dicts). -/
structure Candidate where
  address : String
  mock_apy : ℚ
  mock_tvl : ℚ
  protocol : String
deriving DecidableEq

/-- Schema `CandidateSchema` of `api_v1/schemas.py` (utility already rounded). -/
structure CandidateSchema where
  address : String
  apy : ℚ
  tvl : ℚ
  safety_score : ℚ
  utility : ℚ
  warnings : List String
  protocol : String
deriving DecidableEq

/-- The official staking whitelist `CANDIDATE_FARMS` (api.py lines 136–144). -/
def CANDIDATE_FARMS : List Candidate :=
  [{ address := "0x1b227DF9c8D34CaB880774737FBf426E66Ba98Ed"
     mock_apy := 12 / 100
     mock_tvl := 500000
     protocol := "staking" }]

/-- The official lending whitelist `CANDIDATE_LENDING` (api.py lines 147–154). -/
def CANDIDATE_LENDING : List Candidate :=
  [{ address := "0xa23bDd28F9221F275897D8A26A8eb97A341cd257"
     mock_apy := 5 / 100
     mock_tvl := 2500000
     protocol := "lending" }]

/-- Whitelist selection (api.py lines 160–172): the intent category is read
from the intent JSON (`none` models a missing key or missing JSON), lower-cased,
and matched by substring; anything unclear defaults to the staking farms. -/
def chooseWhitelist (intentType : Option String) : List Candidate :=
  let t := pyLower (intentType.getD "")
  if pyIn "lend" t || pyIn "borrow" t then CANDIDATE_LENDING
  else if pyIn "stake" t || pyIn "farm" t then CANDIDATE_FARMS
  else CANDIDATE_FARMS

/-- Body of the per-candidate loop (api.py lines 183–240): the environment
`reports` gives the outcome of `run_security_check` per address (`none` models
an exception caught by the loop's `try`, which skips the candidate); unsafe
candidates are skipped, surviving ones get the rounded utility
`apy * 0.5 + (safety_score / 100) * 0.5`. -/
def scoreOf (reports : String → Option SecurityReport) (c : Candidate) :
    Option CandidateSchema :=
  match reports c.address with
  | none => none
  | some rep =>
    if rep.is_safe then
      some { address := c.address
             apy := c.mock_apy
             tvl := c.mock_tvl
             safety_score := (rep.safety_score : ℚ)
             utility := round6 (c.mock_apy * (1 / 2) + ((rep.safety_score : ℚ) / 100) * (1 / 2))
             warnings := rep.warnings
             protocol := c.protocol }
    else none

/-- The `candidate_results` list accumulated by the loop, in whitelist order. -/
def candidateResults (reports : String → Option SecurityReport)
    (cs : List Candidate) : List CandidateSchema :=
  cs.filterMap (scoreOf reports)

/-- Python's `max(pending, key=...)` keeps the current best and replaces it
only on a strictly greater key, so the first maximum wins. -/
def pyMaxAux (best : CandidateSchema) (l : List CandidateSchema) : CandidateSchema :=
  l.foldl (fun b x => if b.utility < x.utility then x else b) best

/-- Model of `max(candidate_results, key=lambda c: c.utility)` (api.py line 262);
`none` on an empty list (the code never reaches `max` in that case). -/
def pyMax : List CandidateSchema → Option CandidateSchema
  | [] => none
  | c :: cs => some (pyMaxAux c cs)

/-- A step of the generated plan (the `type`-tagged dicts of api.py
lines 281–308). `asset` and `amount` come from `intent_json.get(...)` and may
be absent. -/
inductive PlanStep where
  | approve (asset : Option String) (amount : Option ℚ) (spender : String)
  | stake (contract : String) (asset : Option String) (amount : Option ℚ)
  | lend (contract : String) (asset : Option String) (amount : Option ℚ)
deriving DecidableEq

/-- Plan-step construction (api.py lines 281–309): the action is `lend` when
the chosen candidate's protocol is `"lending"` or the (lower-cased) intent
category contains `"lend"`, otherwise `stake`; an `approve` step whose spender
is the chosen address is always prepended. -/
def buildPlanSteps (chosen : CandidateSchema) (intentType : String)
    (asset : Option String) (amount : Option ℚ) : List PlanStep :=
  let action :=
    if chosen.protocol == "lending" || pyIn "lend" intentType then
      PlanStep.lend chosen.address asset amount
    else
      PlanStep.stake chosen.address asset amount
  [PlanStep.approve asset amount chosen.address, action]

/-- Outcome of the planning endpoint: either the `HttpError` raised when no
safe candidate survives, or the generated steps with the chosen candidate
(persistence of the plan is out of scope). -/
inductive PlanOutcome where
  | httpError (status : Nat) (msg : String)
  | ok (steps : List PlanStep) (chosen : CandidateSchema)
deriving DecidableEq

/-- Candidate filtering, ranking, abort-on-empty and plan construction of
`plan_intent`, given the already-selected whitelist and the lower-cased intent
category (api.py lines 179–313). -/
def planGiven (cands : List Candidate) (t : String) (asset : Option String)
    (amount : Option ℚ) (reports : String → Option SecurityReport) : PlanOutcome :=
  match candidateResults reports cands with
  | [] => .httpError 500
      "Could not generate a plan. No safe and valid candidates were found after GoPlus security check."
  | c :: rest =>
    let chosen := pyMaxAux c rest
    .ok (buildPlanSteps chosen t asset amount) chosen

/-- Model of `plan_intent` from whitelist selection onward (api.py lines 156–313):
lower-cases the parsed intent category, selects the whitelist, and runs the
filtering/ranking/plan-construction pipeline. -/
def plan_intent (intentType : Option String) (asset : Option String)
    (amount : Option ℚ) (reports : String → Option SecurityReport) : PlanOutcome :=
  let t := pyLower (intentType.getD "")
  planGiven (chooseWhitelist intentType) t asset amount reports

/-- The action-selection condition as claim C3 states it: protocol kind is
lending, or the intent category textually indicates lend or borrow. Stated
from the claim's words, for comparison with `buildPlanSteps`. -/
def claimLendCondition (protocol intentType : String) : Bool :=
  protocol == "lending" || pyIn "lend" intentType || pyIn "borrow" intentType


/-! ## Theorems -/

/-- Shared bound: the aggregated safety score always lies in `[0, 100]`. -/
theorem aggregate_score_bounds (hp mc : Bool) (w : List String) :
    0 ≤ (aggregate hp mc w).safety_score ∧ (aggregate hp mc w).safety_score ≤ 100 := by
  unfold aggregate
  refine ⟨le_max_left 0 _, max_le (by norm_num) ?_⟩
  have h : (0 : Int) ≤ 10 * (w.length : Int) := by positivity
  split <;> split <;> omega

/-- C1: the safety aggregation is the pure function sending the honeypot flag,
the malicious-creator flag and the accumulated warnings to a report with
`is_safe = (not honeypot and not maliciousCreator)` and
`safety_score = max(0, 100 - 10*warningCount - 80*honeypot - 50*maliciousCreator)`,
for every combination of the two flags and every warning count. -/
theorem aggregate_formula (hp mc : Bool) (w : List String) :
    (aggregate hp mc w).is_safe = (!hp && !mc) ∧
    (aggregate hp mc w).safety_score =
      max 0 (100 - 10 * (w.length : Int)
        - (if hp then 80 else 0) - (if mc then 50 else 0)) :=
  ⟨rfl, rfl⟩

/-- C6: every `SecurityReport` produced by `run_security_check` has
`0 ≤ safety_score ≤ 100`, whatever the oracle, cache and credential state. -/
theorem run_security_check_score_in_range (c : Config) (cache : Option String)
    (resps : List TokenResp) (o : OracleEnv) :
    0 ≤ (run_security_check c cache resps o).1.safety_score ∧
    (run_security_check c cache resps o).1.safety_score ≤ 100 :=
  aggregate_score_bounds _ _ _

/-- C5: `run_security_check` is total over every oracle behaviour — it always
returns the aggregation of the two sub-checks (it never raises), and a
network/transport error inside either sub-check is converted into the
corresponding warning string of the returned report. -/
theorem run_security_check_never_raises (c : Config) (cache : Option String)
    (resps : List TokenResp) (o : OracleEnv) :
    (run_security_check c cache resps o).1 =
      aggregate (tokenSubCheck o.tokenSec).2 (addrSubCheck o.addrSec).2
        ((tokenSubCheck o.tokenSec).1 ++ (addrSubCheck o.addrSec).1) ∧
    (o.tokenSec = .error →
      "Failed to perform token security check." ∈
        (run_security_check c cache resps o).1.warnings) ∧
    (o.addrSec = .error →
      "Failed to perform deployer address security check." ∈
        (run_security_check c cache resps o).1.warnings) := by
  refine ⟨rfl, ?_, ?_⟩
  · intro h
    simp [run_security_check, aggregate, tokenSubCheck, h]
  · intro h
    simp [run_security_check, aggregate, addrSubCheck, h]

/-- Witness for C5 at a concrete input: both sub-checks err, and both failure
warnings appear in the returned report. -/
theorem run_security_check_never_raises_witness :
    OracleEnv.tokenSec ⟨.error, .error⟩ = .error ∧
    "Failed to perform token security check." ∈
      (run_security_check ⟨"", ""⟩ none [] ⟨.error, .error⟩).1.warnings ∧
    "Failed to perform deployer address security check." ∈
      (run_security_check ⟨"", ""⟩ none [] ⟨.error, .error⟩).1.warnings :=
  ⟨rfl,
   (run_security_check_never_raises ⟨"", ""⟩ none [] ⟨.error, .error⟩).2.1 rfl,
   (run_security_check_never_raises ⟨"", ""⟩ none [] ⟨.error, .error⟩).2.2 rfl⟩

/-- C9 is false on the code: for the flag value `"2"` — falsy by the truthy
literal set, so the claim demands the warning — the token sub-check appends no
"not verified" warning, because the code tests membership in
`{"0", "false", "False"}` rather than non-membership in `{"1", "true", "True"}`.
The honeypot flag stays unset either way. -/
theorem open_source_warning_counterexample :
    truthy (pyStr (TokenSecResult.mk none (some "2")).is_open_source) = false ∧
    "Contract source code is not verified." ∉
      (tokenSubCheck (.ok (some ⟨none, some "2"⟩))).1 ∧
    (tokenSubCheck (.ok (some ⟨none, some "2"⟩))).2 = false := by decide

/-- C9 (amended): in the token-security sub-check warning
"Contract source code is not verified." is appended exactly when the
`is_open_source` flag is one of the literal strings `"0"`, `"false"`,
`"False"`, and the honeypot flag is determined by `is_honeypot` alone — the
`is_open_source` branch never sets it. -/
theorem open_source_warning_iff (r : TokenSecResult) :
    ("Contract source code is not verified." ∈ (tokenSubCheck (.ok (some r))).1 ↔
      falsy (pyStr r.is_open_source) = true) ∧
    (tokenSubCheck (.ok (some r))).2 = truthy (pyStr r.is_honeypot) := by
  constructor
  · cases h1 : truthy (pyStr r.is_honeypot) <;>
      cases h2 : falsy (pyStr r.is_open_source) <;>
        simp [tokenSubCheck, h1, h2]
  · rfl

/-- C8 is false on the code: with no key/secret configured and an empty cache,
`_get_access_token` raises (`Exception("GoPlus API credentials not
configured")`) instead of returning an empty credential. -/
theorem getAccessToken_no_creds_raises :
    (getAccessToken ⟨"", ""⟩ none []).1 = Except.error () := rfl

/-- C8 (amended): when no oracle key/secret is configured,
`run_security_check` never invokes the token getter — the access token stays
empty (`none`), the downstream sub-check calls proceed unauthenticated
(no `Authorization` header), and the check still returns its report; calling
`_get_access_token` directly in that state raises on a cache miss. -/
theorem no_creds_proceeds_unauthenticated (c : Config) (cache : Option String)
    (resps : List TokenResp) (o : OracleEnv) (h : credsConfigured c = false) :
    (run_security_check c cache resps o).2 = none ∧
    (run_security_check c cache resps o).1 =
      aggregate (tokenSubCheck o.tokenSec).2 (addrSubCheck o.addrSec).2
        ((tokenSubCheck o.tokenSec).1 ++ (addrSubCheck o.addrSec).1) := by
  refine ⟨?_, rfl⟩
  simp [run_security_check, obtainToken, h]

/-- Witness for C8's amended theorem at a concrete input. -/
theorem no_creds_proceeds_unauthenticated_witness :
    credsConfigured ⟨"", ""⟩ = false ∧
    (run_security_check ⟨"", ""⟩ none [] ⟨.ok none, .ok none⟩).2 = none :=
  ⟨by decide,
   (no_creds_proceeds_unauthenticated ⟨"", ""⟩ none [] ⟨.ok none, .ok none⟩ (by decide)).1⟩

/-- C10: whenever the (lower-cased) parsed intent category — the value
`plan_intent` actually inspects — contains none of the substrings "lend",
"borrow", "stake", "farm" (including an empty or missing category), the
planner silently falls back to the staking whitelist and planning proceeds
with those candidates. -/
theorem unclear_intent_defaults_to_staking (ty : Option String)
    (asset : Option String) (amount : Option ℚ)
    (reports : String → Option SecurityReport)
    (h1 : pyIn "lend" (pyLower (ty.getD "")) = false)
    (h2 : pyIn "borrow" (pyLower (ty.getD "")) = false)
    (h3 : pyIn "stake" (pyLower (ty.getD "")) = false)
    (h4 : pyIn "farm" (pyLower (ty.getD "")) = false) :
    chooseWhitelist ty = CANDIDATE_FARMS ∧
    plan_intent ty asset amount reports =
      planGiven CANDIDATE_FARMS (pyLower (ty.getD "")) asset amount reports := by
  have hc : chooseWhitelist ty = CANDIDATE_FARMS := by
    unfold chooseWhitelist
    simp [h1, h2, h3, h4]
  exact ⟨hc, by unfold plan_intent; rw [hc]⟩

/-- Witness for C10 at the missing category: the fallback picks the farms. -/
theorem unclear_intent_defaults_to_staking_witness :
    pyIn "lend" (pyLower ((none : Option String).getD "")) = false ∧
    chooseWhitelist none = CANDIDATE_FARMS :=
  ⟨by decide,
   (unclear_intent_defaults_to_staking none none none (fun _ => none)
     (by decide) (by decide) (by decide) (by decide)).1⟩

/-- C4: when every candidate of the selected whitelist is filtered out, the
planning pipeline aborts with the 500 `HttpError` before any plan is built —
the outcome is never an `ok` carrying steps. -/
theorem empty_safe_set_fails (ty : Option String) (asset : Option String)
    (amount : Option ℚ) (reports : String → Option SecurityReport)
    (h : candidateResults reports (chooseWhitelist ty) = []) :
    plan_intent ty asset amount reports =
      .httpError 500
        "Could not generate a plan. No safe and valid candidates were found after GoPlus security check." ∧
    ∀ steps chosen, plan_intent ty asset amount reports ≠ .ok steps chosen := by
  have key : plan_intent ty asset amount reports =
      PlanOutcome.httpError 500
        "Could not generate a plan. No safe and valid candidates were found after GoPlus security check." := by
    unfold plan_intent planGiven
    rw [h]
  refine ⟨key, ?_⟩
  intro steps chosen hcontra
  rw [key] at hcontra
  cases hcontra

/-- Witness for C4: a single honeypot-style (unsafe) report empties the safe
set and planning terminates with the 500 error. -/
theorem empty_safe_set_fails_witness :
    candidateResults (fun _ => some ⟨false, 0, []⟩) (chooseWhitelist none) = [] ∧
    plan_intent none none none (fun _ => some ⟨false, 0, []⟩) =
      .httpError 500
        "Could not generate a plan. No safe and valid candidates were found after GoPlus security check." :=
  ⟨by decide,
   (empty_safe_set_fails none none none (fun _ => some ⟨false, 0, []⟩) (by decide)).1⟩

/-- C3 is false on the code as stated: the claimed action rule says a category
textually indicating lend or borrow forces a `Lend` step, but for a chosen
candidate of protocol "staking" and category "borrow" the code emits `Stake`
(it only tests the substring "lend", plus the protocol kind). -/
theorem borrow_category_counterexample :
    claimLendCondition "staking" "borrow" = true ∧
    buildPlanSteps
        { address := "0xS", apy := 0, tvl := 0, safety_score := 0, utility := 0,
          warnings := [], protocol := "staking" }
        "borrow" (some "BDAG") (some 1000) =
      [PlanStep.approve (some "BDAG") (some 1000) "0xS",
       PlanStep.stake "0xS" (some "BDAG") (some 1000)] := by decide

/-- C3 (amended): for every chosen candidate, category, asset and amount the
plan has exactly two steps — an `Approve` whose spender is the chosen address,
then one action step targeting that address, which is `Lend` exactly when the
candidate's protocol is "lending" or the category contains the substring
"lend" (so any category containing "lend" yields `Lend` even when the protocol
kind is ambiguous), and `Stake` otherwise. -/
theorem buildPlanSteps_shape (chosen : CandidateSchema) (t : String)
    (asset : Option String) (amount : Option ℚ) :
    buildPlanSteps chosen t asset amount =
      [PlanStep.approve asset amount chosen.address,
       if (chosen.protocol == "lending" || pyIn "lend" t) = true then
         PlanStep.lend chosen.address asset amount
       else
         PlanStep.stake chosen.address asset amount] := by
  unfold buildPlanSteps
  split <;> rfl

/-- Shared lemma: the authentication loop returns the credential of the first
attempt that yields one, counting one request per attempt, provided every
earlier attempt merely failed. -/
theorem tryAttempts_first_success :
    ∀ (l : List TokenResp) (i : Nat) (hi : i < l.length) (t : String) (e : Int)
      (n : Nat),
      evalAttempt (l.get ⟨i, hi⟩) = .success t e →
      (∀ j (hj : j < i), evalAttempt (l.get ⟨j, Nat.lt_trans hj hi⟩) = .failed) →
      tryAttempts l n = .ok (t, e, n + i + 1)
  | [], i, hi => absurd hi (Nat.not_lt_zero i)
  | r :: rest, 0, hi => by
    intro t e n hwin hprev
    have hr : evalAttempt r = .success t e := hwin
    unfold tryAttempts
    rw [hr]
  | r :: rest, k + 1, hi => by
    intro t e n hwin hprev
    have h0 : evalAttempt r = .failed := hprev 0 (Nat.succ_pos k)
    have hk : k < rest.length := Nat.lt_of_succ_lt_succ hi
    have hwin2 : evalAttempt (rest.get ⟨k, hk⟩) = .success t e := hwin
    have hprev2 : ∀ j (hj : j < k),
        evalAttempt (rest.get ⟨j, Nat.lt_trans hj hk⟩) = .failed := by
      intro j hj
      exact hprev (j + 1) (Nat.succ_lt_succ hj)
    have hrec := tryAttempts_first_success rest k hk t e (n + 1) hwin2 hprev2
    have harith : n + 1 + k + 1 = n + (k + 1) + 1 := by omega
    rw [harith] at hrec
    unfold tryAttempts
    rw [h0]
    exact hrec

/-- C7: on a cache hit `_get_access_token` returns the cached credential with
no token request issued; on a cache miss (credentials configured) it walks the
ordered payload shapes and the first attempt yielding a credential wins, the
token being cached with TTL `max(60, reported_expiry - 60)` after exactly
`i + 1` requests. -/
theorem getAccessToken_spec (c : Config) (cache : Option String)
    (resps : List TokenResp) :
    (∀ t, cache = some t → getAccessToken c cache resps = (.ok (t, none), 0)) ∧
    (cache = none → credsConfigured c = true →
      ∀ (i : Nat) (hi : i < (resps.take 3).length) (t : String) (e : Int),
        evalAttempt ((resps.take 3).get ⟨i, hi⟩) = .success t e →
        (∀ j (hj : j < i),
          evalAttempt ((resps.take 3).get ⟨j, Nat.lt_trans hj hi⟩) = .failed) →
        getAccessToken c cache resps =
          (.ok (t, some (t, max 60 (e - 60))), i + 1)) := by
  constructor
  · intro t h
    rw [h]
    rfl
  · intro hcache hcreds i hi t e hwin hprev
    subst hcache
    have hTry := tryAttempts_first_success (resps.take 3) i hi t e 0 hwin hprev
    simp only [getAccessToken, hcreds, hTry, if_true, Nat.zero_add]

/-- Witness for C7: a hit returns the cached token with zero requests; on a
miss whose first shape gets an HTTP error and whose second shape answers with
a nested `result.access_token` and `expires_in = 7200`, the second shape wins
after two requests and the TTL is `max 60 (7200 - 60)`. -/
theorem getAccessToken_spec_witness :
    getAccessToken ⟨"k", "s"⟩ (some "cached") [] = (.ok ("cached", none), 0) ∧
    credsConfigured ⟨"k", "s"⟩ = true ∧
    getAccessToken ⟨"k", "s"⟩ none
        [TokenResp.httpError,
         TokenResp.ok
           { code := some 1,
             result := some
               { access_token := some "tok", token := none, expires_in := some 7200 },
             data := none, access_token := none, token := none, expires_in := none },
         TokenResp.fatal] =
      (.ok ("tok", some ("tok", max 60 (7200 - 60))), 1 + 1) := by
  refine ⟨(getAccessToken_spec ⟨"k", "s"⟩ (some "cached") []).1 "cached" rfl,
    by decide, ?_⟩
  exact (getAccessToken_spec ⟨"k", "s"⟩ none _).2 rfl (by decide) 1 (by decide)
    "tok" 7200 (by rfl)
    (by
      intro j hj
      cases j with
      | zero => rfl
      | succ m => exact absurd hj (by omega))

/-- Shared lemma: the fold behind `max(..., key=...)` returns either the seed
(when nothing beats it) or the first list element that strictly improves on
everything before it; in either case the result dominates every element and
every element strictly before it is strictly smaller. -/
theorem pyMaxAux_first_max :
    ∀ (l : List CandidateSchema) (best : CandidateSchema),
      (pyMaxAux best l = best ∧ ∀ x ∈ l, x.utility ≤ best.utility) ∨
      (∃ (i : Nat) (hi : i < l.length),
        l.get ⟨i, hi⟩ = pyMaxAux best l ∧
        best.utility < (pyMaxAux best l).utility ∧
        (∀ x ∈ l, x.utility ≤ (pyMaxAux best l).utility) ∧
        (∀ j (hj : j < i),
          (l.get ⟨j, Nat.lt_trans hj hi⟩).utility < (pyMaxAux best l).utility))
  | [], best => Or.inl ⟨rfl, by simp⟩
  | x :: xs, best => by
    have hstep : pyMaxAux best (x :: xs) =
        pyMaxAux (if best.utility < x.utility then x else best) xs := rfl
    by_cases h : best.utility < x.utility
    · rw [if_pos h] at hstep
      rcases pyMaxAux_first_max xs x with ⟨heq, hall⟩ | ⟨i, hi, hget, hlt, hall, hfirst⟩
      · refine Or.inr ⟨0, Nat.succ_pos xs.length, ?_, ?_, ?_, ?_⟩
        · rw [hstep, heq]
          rfl
        · rw [hstep, heq]
          exact h
        · intro s hs
          rw [hstep, heq]
          rcases List.mem_cons.mp hs with rfl | hs2
          · exact le_refl _
          · exact hall s hs2
        · intro j hj
          exact absurd hj (Nat.not_lt_zero j)
      · refine Or.inr ⟨i + 1, Nat.succ_lt_succ hi, ?_, ?_, ?_, ?_⟩
        · rw [hstep]
          exact hget
        · rw [hstep]
          exact lt_trans h hlt
        · intro s hs
          rw [hstep]
          rcases List.mem_cons.mp hs with rfl | hs2
          · exact le_of_lt hlt
          · exact hall s hs2
        · intro j hj
          rw [hstep]
          cases j with
          | zero => exact hlt
          | succ m => exact hfirst m (Nat.lt_of_succ_lt_succ hj)
    · rw [if_neg h] at hstep
      rcases pyMaxAux_first_max xs best with ⟨heq, hall⟩ | ⟨i, hi, hget, hlt, hall, hfirst⟩
      · refine Or.inl ⟨by rw [hstep, heq], ?_⟩
        intro s hs
        rcases List.mem_cons.mp hs with rfl | hs2
        · exact le_of_not_lt h
        · exact hall s hs2
      · refine Or.inr ⟨i + 1, Nat.succ_lt_succ hi, ?_, ?_, ?_, ?_⟩
        · rw [hstep]
          exact hget
        · rw [hstep]
          exact hlt
        · intro s hs
          rw [hstep]
          rcases List.mem_cons.mp hs with rfl | hs2
          · exact le_trans (le_of_not_lt h) (le_of_lt hlt)
          · exact hall s hs2
        · intro j hj
          rw [hstep]
          cases j with
          | zero => exact lt_of_le_of_lt (le_of_not_lt h) hlt
          | succ m => exact hfirst m (Nat.lt_of_succ_lt_succ hj)

/-- C2: every surviving (safe) candidate's utility equals
`advertisedApy * 0.5 + (safetyScore / 100) * 0.5` rounded to 6 decimal digits,
and for a non-empty surviving list the chosen candidate is the first maximum in
input whitelist order: it dominates every survivor and strictly exceeds every
survivor that precedes it, so a later tied candidate is never selected. -/
theorem utility_ranking_spec (reports : String → Option SecurityReport)
    (cs : List Candidate) (hne : candidateResults reports cs ≠ []) :
    (∀ s ∈ candidateResults reports cs, ∃ c, c ∈ cs ∧ ∃ rep,
        reports c.address = some rep ∧ rep.is_safe = true ∧
        s.apy = c.mock_apy ∧ s.safety_score = (rep.safety_score : ℚ) ∧
        s.utility =
          round6 (c.mock_apy * (1 / 2) + ((rep.safety_score : ℚ) / 100) * (1 / 2))) ∧
    (∃ chosen, pyMax (candidateResults reports cs) = some chosen ∧
      ∃ (i : Nat) (hi : i < (candidateResults reports cs).length),
        (candidateResults reports cs).get ⟨i, hi⟩ = chosen ∧
        (∀ s ∈ candidateResults reports cs, s.utility ≤ chosen.utility) ∧
        (∀ j (hj : j < i),
          ((candidateResults reports cs).get ⟨j, Nat.lt_trans hj hi⟩).utility <
            chosen.utility)) := by
  constructor
  · intro s hs
    rcases List.mem_filterMap.mp hs with ⟨c, hc, hf⟩
    refine ⟨c, hc, ?_⟩
    unfold scoreOf at hf
    cases hrep : reports c.address with
    | none =>
      rw [hrep] at hf
      cases hf
    | some rep =>
      rw [hrep] at hf
      by_cases hsafe : rep.is_safe = true
      · simp only [hsafe, if_true, Option.some.injEq] at hf
        refine ⟨rep, rfl, hsafe, ?_, ?_, ?_⟩ <;> rw [← hf]
      · simp [hsafe] at hf
  · rcases hcons : candidateResults reports cs with _ | ⟨c, rest⟩
    · exact absurd hcons hne
    · rcases pyMaxAux_first_max rest c with ⟨heq, hall⟩ | ⟨i, hi, hget, hlt, hall, hfirst⟩
      · refine ⟨pyMaxAux c rest, rfl, 0, Nat.succ_pos rest.length, ?_, ?_, ?_⟩
        · rw [heq]
          rfl
        · intro s hs
          rw [heq]
          rcases List.mem_cons.mp hs with rfl | hs2
          · exact le_refl _
          · exact hall s hs2
        · intro j hj
          exact absurd hj (Nat.not_lt_zero j)
      · refine ⟨pyMaxAux c rest, rfl, i + 1, Nat.succ_lt_succ hi, ?_, ?_, ?_⟩
        · exact hget
        · intro s hs
          rcases List.mem_cons.mp hs with rfl | hs2
          · exact le_of_lt hlt
          · exact hall s hs2
        · intro j hj
          cases j with
          | zero => exact hlt
          | succ m => exact hfirst m (Nat.lt_of_succ_lt_succ hj)

/-- All-clear oracle outcome used to witness the ranking theorem. -/
def allClearReports : String → Option SecurityReport :=
  fun _ => some { is_safe := true, safety_score := 100, warnings := [] }

/-- Witness for C2: with one all-clear report the farm whitelist survives and
the ranking specification holds of it. -/
theorem utility_ranking_spec_witness :
    candidateResults allClearReports CANDIDATE_FARMS ≠ [] ∧
    ((∀ s ∈ candidateResults allClearReports CANDIDATE_FARMS, ∃ c,
        c ∈ CANDIDATE_FARMS ∧ ∃ rep,
        allClearReports c.address = some rep ∧ rep.is_safe = true ∧
        s.apy = c.mock_apy ∧ s.safety_score = (rep.safety_score : ℚ) ∧
        s.utility =
          round6 (c.mock_apy * (1 / 2) + ((rep.safety_score : ℚ) / 100) * (1 / 2))) ∧
     (∃ chosen,
        pyMax (candidateResults allClearReports CANDIDATE_FARMS) = some chosen ∧
        ∃ (i : Nat) (hi : i < (candidateResults allClearReports CANDIDATE_FARMS).length),
          (candidateResults allClearReports CANDIDATE_FARMS).get ⟨i, hi⟩ = chosen ∧
          (∀ s ∈ candidateResults allClearReports CANDIDATE_FARMS,
            s.utility ≤ chosen.utility) ∧
          (∀ j (hj : j < i),
            ((candidateResults allClearReports CANDIDATE_FARMS).get
                ⟨j, Nat.lt_trans hj hi⟩).utility < chosen.utility))) :=
  ⟨by decide, utility_ranking_spec allClearReports CANDIDATE_FARMS (by decide)⟩

end IntentLink
